import Mathlib

/-!
Shallow embedding of the `OutdatedVersionAlertService`
(`packages/amplication-server/src/core/outdatedVersionAlert/outdatedVersionAlert.service.ts`)
and of the `useProjectBaseUrl` React hook, together with proofs of the
specification claims about them.

The relational store of alerts is modelled as a list of alert records plus a
fresh-id counter.  The read-only collaborators (resource service, project
service, plugin-installation service) are modelled as an immutable environment
of records that the lookup functions query.  The Kafka notification sink is
modelled by a trace of dispatched events together with a failure oracle: the
service dispatches the event (appending it to the trace) and, when the oracle
says the delivery rejected, appends a log entry — exactly the shape of the
`emitMessage(...).catch(error => this.logger.error(...))` pattern in the
source.  Wall-clock fields (`createdAt: Date.now()`) and configuration
(`envBaseUrl`) of the emitted event are omitted from the event record.
-/

namespace Amplication

/-- `EnumOutdatedVersionAlertType` from the prisma schema. -/
inductive EnumOutdatedVersionAlertType where
  | TemplateVersion
  | PluginVersion
deriving DecidableEq, Repr

/-- `EnumOutdatedVersionAlertStatus` from
`dto/EnumOutdatedVersionAlertStatus`. -/
inductive EnumOutdatedVersionAlertStatus where
  | New
  | Resolved
  | Ignored
  | Canceled
deriving DecidableEq, Repr

/-- `EnumResourceType` from `resource/dto/EnumResourceType` (the constructors
the alert service distinguishes; only `ServiceTemplate` is tested against). -/
inductive EnumResourceType where
  | Service
  | ProjectConfiguration
  | MessageBroker
  | ServiceTemplate
  | Component
deriving DecidableEq, Repr

/-- The `OutdatedVersionAlert` entity.  The database-generated cuid is
modelled as a `Nat` drawn from a fresh-id counter. -/
structure OutdatedVersionAlert where
  id : Nat
  resourceId : String
  blockId : Option String
  type : EnumOutdatedVersionAlertType
  status : EnumOutdatedVersionAlertStatus
  outdatedVersion : String
  latestVersion : String
deriving DecidableEq, Repr

/-- A `Resource` record, restricted to the fields the alert service reads. -/
structure ResourceRec where
  id : String
  name : String
  resourceType : EnumResourceType
  projectId : String
  serviceTemplateId : Option String
  deletedAt : Option Nat
  archived : Bool
deriving DecidableEq, Repr

/-- A `Project` record, restricted to the fields the alert service reads. -/
structure ProjectRec where
  id : String
  name : String
  workspaceId : String
deriving DecidableEq, Repr

/-- A `PluginInstallation` block, restricted to the fields the alert service
reads. -/
structure PluginInstallationRec where
  id : String
  resourceId : String
  pluginId : String
  version : String
  displayName : String
deriving DecidableEq, Repr

/-- The immutable environment backing the read-only collaborators:
resources, projects, plugin installations, and the per-service template
settings (`serviceId` paired with the currently effective template
version). -/
structure Env where
  resources : List ResourceRec
  projects : List ProjectRec
  pluginInstallations : List PluginInstallationRec
  templateVersions : List (String × String)
deriving Repr

/-- `resourceService.resource({ where: { id } })`. -/
def findResource (env : Env) (id : String) : Option ResourceRec :=
  env.resources.find? (fun r => r.id = id)

/-- `projectService.findFirst({ where: { id } })`. -/
def findProject (env : Env) (id : String) : Option ProjectRec :=
  env.projects.find? (fun p => p.id = id)

/-- `resourceService.getResourceWorkspace(resourceId)`: the workspace owning
the resource, reached through the resource's project. -/
def getResourceWorkspace (env : Env) (resourceId : String) : Option String :=
  (findResource env resourceId).bind fun r =>
    (findProject env r.projectId).map (fun p => p.workspaceId)

/-- `resourceService.resources({ where: { serviceTemplateId, project: { id } } })`:
all services referencing the template inside the given project. -/
def resourcesOfTemplate (env : Env) (templateId projectId : String) :
    List ResourceRec :=
  env.resources.filter (fun r =>
    r.serviceTemplateId = some templateId && r.projectId = projectId)

/-- `resourceService.getServiceTemplateSettings(serviceId, null).version`:
the currently effective template version of a service. -/
def getServiceTemplateSettings (env : Env) (serviceId : String) :
    Option String :=
  (env.templateVersions.find? (fun p => p.1 = serviceId)).map (fun p => p.2)

/-- `pluginInstallationService.findPluginInstallationByPluginId(pluginId,
{ resource: { project: { id: projectId } } })`. -/
def findPluginInstallationByPluginId (env : Env) (pluginId projectId : String) :
    List PluginInstallationRec :=
  env.pluginInstallations.filter (fun inst =>
    inst.pluginId = pluginId &&
      match findResource env inst.resourceId with
      | some r => r.projectId = projectId
      | none => false)

/-- Modelled from the spec: `encryptString` of `util/encryptionUtil` is not
part of the excerpt; the spec only says the event carries "an encrypted actor
identifier", so it is modelled as an unspecified injective placeholder. -/
def encryptString (s : String) : String :=
  s

/-- The payload of a `TechDebt.KafkaEvent` value, minus the wall-clock
`createdAt` and the configuration-derived `envBaseUrl`. -/
structure TechDebtEvent where
  resourceId : String
  resourceName : String
  workspaceId : String
  projectId : String
  techDebtId : Nat
  externalId : String
  resourceType : EnumResourceType
  projectName : String
  alertType : EnumOutdatedVersionAlertType
  alertInitiator : String
deriving DecidableEq, Repr

/-- One chronological entry of the observable behaviour of the service: a
completed alert-store insert, or a dispatched notification emission. -/
inductive TraceEntry where
  | alertCreated (a : OutdatedVersionAlert)
  | eventEmitted (e : TechDebtEvent)
deriving DecidableEq, Repr

/-- The mutable state threaded through the service: the alert table, the
fresh-id counter for inserts, the chronological trace of store inserts and
emission dispatches, and the error log. -/
structure ServiceState where
  alerts : List OutdatedVersionAlert
  nextAlertId : Nat
  trace : List TraceEntry
  logged : List String
deriving Repr

/-- The `data` part of `CreateOutdatedVersionAlertArgs`: resource connect id,
optional block connect id, type, and the two version strings. -/
structure CreateOutdatedVersionAlertData where
  resourceId : String
  blockId : Option String
  type : EnumOutdatedVersionAlertType
  outdatedVersion : String
  latestVersion : String
deriving DecidableEq, Repr

/-- The `where` clause of the `updateMany` inside `create`.  Note the prisma
semantics of `blockId: args.data.block?.connect?.id`: when no block is given
the field is `undefined` and the filter on `blockId` is dropped entirely, so
the match is on `(resourceId, type, status)` alone. -/
def matchesCreateScope (d : CreateOutdatedVersionAlertData)
    (a : OutdatedVersionAlert) : Bool :=
  a.resourceId = d.resourceId &&
    (match d.blockId with
     | none => true
     | some b => a.blockId = some b) &&
    a.type = d.type &&
    a.status = EnumOutdatedVersionAlertStatus.New

/-- `OutdatedVersionAlertService.create`: first `updateMany` turns every
still-`New` alert matching the scope into `Canceled`, then the new alert is
inserted with status forced to `New`.  Returns the new state and the created
alert. -/
def create (st : ServiceState) (d : CreateOutdatedVersionAlertData) :
    ServiceState × OutdatedVersionAlert :=
  let canceled := st.alerts.map (fun a =>
    if matchesCreateScope d a then
      { a with status := EnumOutdatedVersionAlertStatus.Canceled }
    else a)
  let newAlert : OutdatedVersionAlert :=
    { id := st.nextAlertId
      resourceId := d.resourceId
      blockId := d.blockId
      type := d.type
      status := EnumOutdatedVersionAlertStatus.New
      outdatedVersion := d.outdatedVersion
      latestVersion := d.latestVersion }
  ({ st with
      alerts := canceled ++ [newAlert]
      nextAlertId := st.nextAlertId + 1
      trace := st.trace ++ [TraceEntry.alertCreated newAlert] },
   newAlert)

/-- `OutdatedVersionAlertService.resolvesServiceTemplateUpdated`: `updateMany`
setting status `Resolved` on the alerts of the given resource that are of type
`TemplateVersion` and still `New`. -/
def resolvesServiceTemplateUpdated (st : ServiceState) (resourceId : String) :
    ServiceState :=
  { st with
      alerts := st.alerts.map (fun a =>
        if a.resourceId = resourceId &&
            a.type = EnumOutdatedVersionAlertType.TemplateVersion &&
            a.status = EnumOutdatedVersionAlertStatus.New then
          { a with status := EnumOutdatedVersionAlertStatus.Resolved }
        else a) }

/-- The errors a trigger operation can throw: the two `AmplicationError`
domain validations, and the `TypeError` raised when a property of a missing
(`null`/`undefined`) collaborator lookup result is dereferenced. -/
inductive AlertError where
  | templateNotFound (id : String)
  | resourceNotTemplate (id : String)
  | lookupFailed (what : String)
deriving DecidableEq, Repr

/-- `true` exactly for the two `AmplicationError` domain-validation errors. -/
def isDomainValidationError : AlertError → Bool
  | AlertError.templateNotFound _ => true
  | AlertError.resourceNotTemplate _ => true
  | AlertError.lookupFailed _ => false

/-- `kafkaProducerService.emitMessage(topic, event).catch(err =>
logger.error(msg, err))`: the dispatch is recorded on the trace
unconditionally; when the failure oracle says this delivery rejects, the
rejection is caught and `msg` is appended to the log — it never escapes. -/
def emitMessage (fails : TechDebtEvent → Bool) (st : ServiceState)
    (ev : TechDebtEvent) (msg : String) : ServiceState :=
  let st1 := { st with trace := st.trace ++ [TraceEntry.eventEmitted ev] }
  if fails ev then { st1 with logged := st1.logged ++ [msg] } else st1

/-- One iteration of the per-service loop of
`triggerAlertsForTemplateVersion`: read the service's effective template
version (dereferencing it fails if the settings are missing), create the
alert, build the event (dereferencing `workspace.id` / `project.name` fails
if either lookup came back empty — note this happens after the store insert)
and dispatch it. -/
def templateAlertStep (env : Env) (fails : TechDebtEvent → Bool)
    (workspaceId : Option String) (project : Option ProjectRec)
    (template : ResourceRec) (latestVersion userId : String)
    (st : ServiceState) (service : ResourceRec) :
    ServiceState × Option AlertError :=
  match getServiceTemplateSettings env service.id with
  | none =>
      (st, some (AlertError.lookupFailed
        ("serviceTemplateSettings " ++ service.id)))
  | some currentVersion =>
      let res := create st
        { resourceId := service.id
          blockId := none
          type := EnumOutdatedVersionAlertType.TemplateVersion
          outdatedVersion := currentVersion
          latestVersion := latestVersion }
      match workspaceId, project with
      | some wid, some proj =>
          let ev : TechDebtEvent :=
            { resourceId := service.id
              resourceName := service.name
              workspaceId := wid
              projectId := template.projectId
              techDebtId := res.2.id
              externalId := encryptString userId
              resourceType := service.resourceType
              projectName := proj.name
              alertType := res.2.type
              alertInitiator := template.name }
          (emitMessage fails res.1 ev
            ("Failed to queue tech debt for service " ++ service.id), none)
      | _, _ =>
          (res.1, some (AlertError.lookupFailed "workspace or project"))

/-- Sequential fan-out driver: run the per-item step over the list, stopping
(with the state reached so far) at the first thrown error — the shape of a
`for ... of` loop of awaited calls inside an `async` function. -/
def runSteps (step : ServiceState → α → ServiceState × Option AlertError)
    (st : ServiceState) : List α → ServiceState × Option AlertError
  | [] => (st, none)
  | x :: xs =>
      match step st x with
      | (st1, some e) => (st1, some e)
      | (st1, none) => runSteps step st1 xs

/-- `OutdatedVersionAlertService.triggerAlertsForTemplateVersion`.  The
`outdatedVersion` parameter is `string` in the source but is compared against
`null`, so it is modelled as `Option String`; it is otherwise unused (the
alert records the service's own current template version).  Returns the state
reached together with the error thrown, if any. -/
def triggerAlertsForTemplateVersion (env : Env)
    (fails : TechDebtEvent → Bool) (templateResourceId : String)
    (outdatedVersion : Option String) (latestVersion userId : String)
    (st : ServiceState) : ServiceState × Option AlertError :=
  match findResource env templateResourceId with
  | none => (st, some (AlertError.templateNotFound templateResourceId))
  | some template =>
      if template.resourceType ≠ EnumResourceType.ServiceTemplate then
        (st, some (AlertError.resourceNotTemplate templateResourceId))
      else
        let workspaceId := getResourceWorkspace env templateResourceId
        let project := findProject env template.projectId
        let services := resourcesOfTemplate env templateResourceId
          template.projectId
        match outdatedVersion with
        | none => (st, none)
        | some _ =>
            runSteps
              (templateAlertStep env fails workspaceId project template
                latestVersion userId)
              st services

/-- One iteration of the per-installation loop of
`triggerAlertsForNewPluginVersion`: create the alert (block connected to the
installation), resolve the installation's owning resource, build the event
(dereferencing `resource.name` / `project.name` fails if either lookup came
back empty — after the store insert) and dispatch it. -/
def pluginAlertStep (env : Env) (fails : TechDebtEvent → Bool)
    (project : Option ProjectRec) (projectId newVersion userId : String)
    (st : ServiceState) (inst : PluginInstallationRec) :
    ServiceState × Option AlertError :=
  let res := create st
    { resourceId := inst.resourceId
      blockId := some inst.id
      type := EnumOutdatedVersionAlertType.PluginVersion
      outdatedVersion := inst.version
      latestVersion := newVersion }
  match findResource env res.2.resourceId, project with
  | some resource, some proj =>
      let ev : TechDebtEvent :=
        { resourceId := inst.resourceId
          resourceName := resource.name
          workspaceId := proj.workspaceId
          projectId := projectId
          techDebtId := res.2.id
          externalId := encryptString userId
          resourceType := resource.resourceType
          projectName := proj.name
          alertType := res.2.type
          alertInitiator := inst.displayName }
      (emitMessage fails res.1 ev
        ("Failed to queue tech debt for plugin " ++ inst.id), none)
  | _, _ =>
      (res.1, some (AlertError.lookupFailed "resource or project"))

/-- `OutdatedVersionAlertService.triggerAlertsForNewPluginVersion`. -/
def triggerAlertsForNewPluginVersion (env : Env)
    (fails : TechDebtEvent → Bool) (projectId pluginId newVersion
    userId : String) (st : ServiceState) :
    ServiceState × Option AlertError :=
  let pluginInstallations :=
    findPluginInstallationByPluginId env pluginId projectId
  let project := findProject env projectId
  runSteps
    (pluginAlertStep env fails project projectId newVersion userId)
    st pluginInstallations

lemma runSteps_cons_stop {α : Type}
    {step : ServiceState → α → ServiceState × Option AlertError}
    {st s1 : ServiceState} {x : α} {xs : List α} {e : AlertError}
    (h : step st x = (s1, some e)) :
    runSteps step st (x :: xs) = (s1, some e) := by
  simp [runSteps, h]

lemma runSteps_cons_go {α : Type}
    {step : ServiceState → α → ServiceState × Option AlertError}
    {st s1 : ServiceState} {x : α} {xs : List α}
    (h : step st x = (s1, none)) :
    runSteps step st (x :: xs) = runSteps step s1 xs := by
  simp [runSteps, h]

/-- The caller-suppliable `resource` sub-filter of a `findMany` `where`
clause: an optional exact filter on `deletedAt`, an optional `not` filter on
`archived`, and (as a representative of the other resource fields a caller
may filter on) an optional filter on `projectId`. -/
structure ResourceWhere where
  projectId : Option String := none
  deletedAt : Option (Option Nat) := none
  archivedNot : Option Bool := none
deriving DecidableEq, Repr

/-- The caller-suppliable `where` clause of
`FindManyOutdatedVersionAlertArgs`. -/
structure AlertWhere where
  resourceId : Option String := none
  type : Option EnumOutdatedVersionAlertType := none
  status : Option EnumOutdatedVersionAlertStatus := none
  resource : Option ResourceWhere := none
deriving DecidableEq, Repr

/-- Evaluate a `resource` sub-filter against a resource record. -/
def evalResourceWhere (w : ResourceWhere) (r : ResourceRec) : Bool :=
  (match w.projectId with
   | none => true
   | some p => r.projectId = p) &&
  (match w.deletedAt with
   | none => true
   | some v => r.deletedAt = v) &&
  (match w.archivedNot with
   | none => true
   | some b => !(r.archived = b))

/-- Evaluate a `where` clause against an alert; the relation filter
`resource: {...}` is evaluated against the alert's owning resource looked up
in the environment (and fails when the resource does not exist). -/
def evalAlertWhere (env : Env) (w : AlertWhere)
    (a : OutdatedVersionAlert) : Bool :=
  (match w.resourceId with
   | none => true
   | some rid => a.resourceId = rid) &&
  (match w.type with
   | none => true
   | some t => a.type = t) &&
  (match w.status with
   | none => true
   | some s => a.status = s) &&
  (match w.resource with
   | none => true
   | some rw =>
       match findResource env a.resourceId with
       | none => false
       | some r => evalResourceWhere rw r)

/-- The `where` clause `findMany` actually queries with: the caller's clause
spread first, then `resource: { ...args.where?.resource, deletedAt: null,
archived: { not: true } }` — the two exclusion fields are written after the
spread of the caller's resource sub-filter, so they always win. -/
def mergedWhere (w : AlertWhere) : AlertWhere :=
  { w with
      resource := some
        { (w.resource.getD {}) with
            deletedAt := some none
            archivedNot := some true } }

/-- `OutdatedVersionAlertService.findMany`. -/
def findMany (env : Env) (st : ServiceState) (w : AlertWhere) :
    List OutdatedVersionAlert :=
  st.alerts.filter (evalAlertWhere env (mergedWhere w))

end Amplication

namespace ProjectBaseUrl

/-- A character allowed by the `[A-Za-z0-9-]` class of the route
parameters. -/
def isRouteParamChar (c : Char) : Bool :=
  c.isAlpha || c.isDigit || c = '-'

/-- A path segment accepted by the `([A-Za-z0-9-]{20,})` parameter pattern:
at least 20 characters, all from the class (stated over the segment's
character list, which the kernel can evaluate). -/
def validRouteParam (s : String) : Bool :=
  decide (20 ≤ s.data.length) && s.data.all isRouteParamChar

/-- The result of `useRouteMatch` on the two patterns: the captured
`workspace` and `project` parameters, and whether the pattern that matched
was the platform one (`match.path.includes("/platform/")`). -/
structure RouteMatch where
  workspace : String
  project : String
  isPlatformPath : Bool
deriving DecidableEq, Repr

/-- `useRouteMatch(["/:workspace([A-Za-z0-9-]{20,})/platform/:project([A-Za-z0-9-]{20,})/",
"/:workspace([A-Za-z0-9-]{20,})/:project([A-Za-z0-9-]{20,})/"])` on the
current route, represented by its list of non-empty path segments; the
patterns are tried in order and match as prefixes of the route. -/
def matchProjectRoute : List String → Option RouteMatch
  | w :: s :: p :: _ =>
      if s = "platform" && validRouteParam w && validRouteParam p then
        some { workspace := w, project := p, isPlatformPath := true }
      else if validRouteParam w && validRouteParam s then
        some { workspace := w, project := s, isPlatformPath := false }
      else
        none
  | [w, s] =>
      if validRouteParam w && validRouteParam s then
        some { workspace := w, project := s, isPlatformPath := false }
      else
        none
  | _ => none

/-- The `useProjectBaseUrl` hook, as a function of the current route's path
segments and the optional `overrideIsPlatformConsole` prop.  Returns the pair
`(baseUrl, isPlatformConsole)`. -/
def useProjectBaseUrl (segments : List String)
    (overrideIsPlatformConsole : Option Bool) : String × Bool :=
  match matchProjectRoute segments with
  | none => ("", false)
  | some m =>
      let isPlatformConsole :=
        overrideIsPlatformConsole.getD m.isPlatformPath
      let platformPath := if isPlatformConsole then "/platform" else ""
      ("/" ++ m.workspace ++ platformPath ++ "/" ++ m.project,
        isPlatformConsole)

end ProjectBaseUrl

namespace Amplication

/-- `a` is an alert of the exact scope `(rid, bid, ty)` that is still in
status `New`. -/
def isNewInScope (a : OutdatedVersionAlert) (rid : String)
    (bid : Option String) (ty : EnumOutdatedVersionAlertType) : Bool :=
  a.resourceId = rid && a.blockId = bid && a.type = ty &&
    a.status = EnumOutdatedVersionAlertStatus.New

/-- Number of alerts in the store that are `New` in the exact scope
`(rid, bid, ty)`. -/
def newCount (st : ServiceState) (rid : String) (bid : Option String)
    (ty : EnumOutdatedVersionAlertType) : Nat :=
  st.alerts.countP (fun a => isNewInScope a rid bid ty)

lemma matchesCreateScope_of_exact {d : CreateOutdatedVersionAlertData}
    {a : OutdatedVersionAlert}
    (h : isNewInScope a d.resourceId d.blockId d.type = true) :
    matchesCreateScope d a = true := by
  simp only [isNewInScope, Bool.and_eq_true, decide_eq_true_eq] at h
  obtain ⟨⟨⟨h1, h2⟩, h3⟩, h4⟩ := h
  cases hd : d.blockId with
  | none =>
      simp [matchesCreateScope, hd, h1, h3, h4]
  | some blk =>
      rw [hd] at h2
      simp [matchesCreateScope, hd, h1, h2, h3, h4]

/-- The updated alert list produced by `create`. -/
lemma create_alerts_eq (st : ServiceState)
    (d : CreateOutdatedVersionAlertData) :
    (create st d).1.alerts =
      st.alerts.map (fun a =>
        if matchesCreateScope d a then
          { a with status := EnumOutdatedVersionAlertStatus.Canceled }
        else a) ++ [(create st d).2] := rfl

lemma create_snd_fields (st : ServiceState)
    (d : CreateOutdatedVersionAlertData) :
    (create st d).2.resourceId = d.resourceId ∧
    (create st d).2.blockId = d.blockId ∧
    (create st d).2.type = d.type ∧
    (create st d).2.status = EnumOutdatedVersionAlertStatus.New := by
  refine ⟨rfl, rfl, rfl, rfl⟩

/-- No alert of the mapped (superseded) part of the store is still `New` in
the created alert's exact scope. -/
lemma countP_superseded_eq_zero (st : ServiceState)
    (d : CreateOutdatedVersionAlertData) :
    (st.alerts.map (fun a =>
        if matchesCreateScope d a then
          { a with status := EnumOutdatedVersionAlertStatus.Canceled }
        else a)).countP
      (fun a => isNewInScope a d.resourceId d.blockId d.type) = 0 := by
  rw [List.countP_map, List.countP_eq_zero]
  intro a _
  simp only [Function.comp_apply]
  by_cases hm : matchesCreateScope d a = true
  · simp [hm, isNewInScope]
  · rw [if_neg (by simpa using hm)]
    intro hnew
    exact hm (matchesCreateScope_of_exact hnew)

/-- Claim C1: after `create(args)`, every alert that before the call was
`New` in the scope `(resourceId, blockId, type)` of the arguments is
`Canceled`; the returned alert is in the store, is `New` in exactly that
scope, it is the only `New` alert of that scope, and the at-most-one-`New`
invariant is preserved for every scope. -/
theorem create_supersedes_and_unique_new
    (st : ServiceState) (d : CreateOutdatedVersionAlertData)
    (b : OutdatedVersionAlert) (rid : String) (bid : Option String)
    (ty : EnumOutdatedVersionAlertType)
    (hb : b ∈ st.alerts)
    (hscope : isNewInScope b d.resourceId d.blockId d.type = true)
    (hinv : newCount st rid bid ty ≤ 1) :
    { b with status := EnumOutdatedVersionAlertStatus.Canceled } ∈
        (create st d).1.alerts ∧
    (create st d).2 ∈ (create st d).1.alerts ∧
    isNewInScope (create st d).2 d.resourceId d.blockId d.type = true ∧
    newCount (create st d).1 d.resourceId d.blockId d.type = 1 ∧
    newCount (create st d).1 rid bid ty ≤ 1 := by
  obtain ⟨hf1, hf2, hf3, hf4⟩ := create_snd_fields st d
  have hcanceled :
      { b with status := EnumOutdatedVersionAlertStatus.Canceled } ∈
        (create st d).1.alerts := by
    rw [create_alerts_eq]
    refine List.mem_append_left _ (List.mem_map.mpr ⟨b, hb, ?_⟩)
    rw [if_pos (by simpa using matchesCreateScope_of_exact hscope)]
  have hmem : (create st d).2 ∈ (create st d).1.alerts := by
    rw [create_alerts_eq]
    exact List.mem_append_right _ (List.mem_singleton.mpr rfl)
  have hnewscope :
      isNewInScope (create st d).2 d.resourceId d.blockId d.type = true := by
    simp [isNewInScope, hf1, hf2, hf3, hf4]
  refine ⟨hcanceled, hmem, hnewscope, ?_, ?_⟩
  · unfold newCount
    rw [create_alerts_eq, List.countP_append, countP_superseded_eq_zero]
    simp [hnewscope]
  · unfold newCount
    rw [create_alerts_eq, List.countP_append]
    by_cases hsc : rid = d.resourceId ∧ bid = d.blockId ∧ ty = d.type
    · obtain ⟨hr, hbd, hty⟩ := hsc
      subst hr; subst hbd; subst hty
      rw [countP_superseded_eq_zero]
      simp [isNewInScope, hf1, hf2, hf3, hf4]
    · have hna : isNewInScope (create st d).2 rid bid ty = false := by
        by_contra hcon
        rw [Bool.not_eq_false] at hcon
        simp only [isNewInScope, Bool.and_eq_true, decide_eq_true_eq,
          hf1, hf2, hf3] at hcon
        exact hsc ⟨hcon.1.1.1.symm, hcon.1.1.2.symm, hcon.1.2.symm⟩
      have hmono :
          (st.alerts.map (fun a =>
            if matchesCreateScope d a then
              { a with status := EnumOutdatedVersionAlertStatus.Canceled }
            else a)).countP (fun a => isNewInScope a rid bid ty) ≤
          st.alerts.countP (fun a => isNewInScope a rid bid ty) := by
        rw [List.countP_map]
        refine List.countP_mono_left ?_
        intro a _ hpa
        simp only [Function.comp_apply] at hpa
        by_cases hm : matchesCreateScope d a = true
        · rw [if_pos (by simpa using hm)] at hpa
          simp [isNewInScope] at hpa
        · rwa [if_neg (by simpa using hm)] at hpa
      calc _ ≤ st.alerts.countP (fun a => isNewInScope a rid bid ty) + 0 := by
              simpa [hna] using hmono
        _ ≤ 1 := by simpa using hinv

/-! Concrete fixtures used by the witness theorems: a service template with
two services in one project, one plugin installation, and a store already
holding three `New` alerts. -/

def tplT : ResourceRec :=
  { id := "tpl-1", name := "Template T"
    resourceType := EnumResourceType.ServiceTemplate
    projectId := "proj-1", serviceTemplateId := none
    deletedAt := none, archived := false }

def svcA : ResourceRec :=
  { id := "svc-a", name := "Service A"
    resourceType := EnumResourceType.Service
    projectId := "proj-1", serviceTemplateId := some "tpl-1"
    deletedAt := none, archived := false }

def svcB : ResourceRec :=
  { id := "svc-b", name := "Service B"
    resourceType := EnumResourceType.Service
    projectId := "proj-1", serviceTemplateId := some "tpl-1"
    deletedAt := none, archived := false }

def svcDeleted : ResourceRec :=
  { id := "svc-del", name := "Deleted service"
    resourceType := EnumResourceType.Service
    projectId := "proj-1", serviceTemplateId := none
    deletedAt := some 42, archived := false }

def projP : ProjectRec :=
  { id := "proj-1", name := "Project P", workspaceId := "ws-1" }

def instOne : PluginInstallationRec :=
  { id := "pi-1", resourceId := "svc-a", pluginId := "plugin-aws-s3"
    version := "1.0.0", displayName := "AWS S3" }

def env0 : Env :=
  { resources := [tplT, svcA, svcB, svcDeleted]
    projects := [projP]
    pluginInstallations := [instOne]
    templateVersions := [("svc-a", "1.0.0"), ("svc-b", "0.9.0")] }

def newTemplateAlert : OutdatedVersionAlert :=
  { id := 0, resourceId := "svc-a", blockId := none
    type := EnumOutdatedVersionAlertType.TemplateVersion
    status := EnumOutdatedVersionAlertStatus.New
    outdatedVersion := "1.0.0", latestVersion := "1.1.0" }

def otherResourceAlert : OutdatedVersionAlert :=
  { id := 1, resourceId := "svc-b", blockId := none
    type := EnumOutdatedVersionAlertType.TemplateVersion
    status := EnumOutdatedVersionAlertStatus.New
    outdatedVersion := "0.9.0", latestVersion := "1.1.0" }

def pluginNewAlert : OutdatedVersionAlert :=
  { id := 2, resourceId := "svc-a", blockId := some "pi-1"
    type := EnumOutdatedVersionAlertType.PluginVersion
    status := EnumOutdatedVersionAlertStatus.New
    outdatedVersion := "1.0.0", latestVersion := "2.0.0" }

def stW : ServiceState :=
  { alerts := [newTemplateAlert, otherResourceAlert, pluginNewAlert]
    nextAlertId := 3, trace := [], logged := [] }

def dW : CreateOutdatedVersionAlertData :=
  { resourceId := "svc-a", blockId := none
    type := EnumOutdatedVersionAlertType.TemplateVersion
    outdatedVersion := "1.0.0", latestVersion := "2.0.0" }

def neverFails : TechDebtEvent → Bool := fun _ => false

/-- Witness for claim C1 at a concrete store holding a `New` alert of the
created scope. -/
theorem create_supersedes_and_unique_new_witness :
    { newTemplateAlert with
        status := EnumOutdatedVersionAlertStatus.Canceled } ∈
      (create stW dW).1.alerts ∧
    (create stW dW).2 ∈ (create stW dW).1.alerts ∧
    isNewInScope (create stW dW).2 "svc-a" none
      EnumOutdatedVersionAlertType.TemplateVersion = true ∧
    newCount (create stW dW).1 "svc-a" none
      EnumOutdatedVersionAlertType.TemplateVersion = 1 ∧
    newCount (create stW dW).1 "svc-a" none
      EnumOutdatedVersionAlertType.TemplateVersion ≤ 1 := by
  exact create_supersedes_and_unique_new stW dW newTemplateAlert "svc-a" none
    EnumOutdatedVersionAlertType.TemplateVersion (by decide) (by decide)
    (by decide)

/-- Claim C3: when the resource does not exist, or exists but is not a
service template, `triggerAlertsForTemplateVersion` throws a
domain-validation `AmplicationError` and leaves the whole state — in
particular the alert store — unchanged. -/
theorem triggerAlertsForTemplateVersion_invalid_resource
    (env : Env) (fails : TechDebtEvent → Bool) (tid : String)
    (ov : Option String) (lv uid : String) (st : ServiceState)
    (h : findResource env tid = none ∨
      ∃ r, findResource env tid = some r ∧
        r.resourceType ≠ EnumResourceType.ServiceTemplate) :
    (triggerAlertsForTemplateVersion env fails tid ov lv uid st).1 = st ∧
    ∃ e, (triggerAlertsForTemplateVersion env fails tid ov lv uid st).2 =
        some e ∧ isDomainValidationError e = true := by
  rcases h with hnone | ⟨r, hr, hty⟩
  · simp only [triggerAlertsForTemplateVersion, hnone]
    exact ⟨trivial, AlertError.templateNotFound tid, rfl, rfl⟩
  · simp only [triggerAlertsForTemplateVersion, hr]
    rw [if_pos hty]
    exact ⟨rfl, AlertError.resourceNotTemplate tid, rfl, rfl⟩

/-- Witness for claim C3: `svc-a` exists but is a `Service`, not a
`ServiceTemplate`. -/
theorem triggerAlertsForTemplateVersion_invalid_resource_witness :
    (triggerAlertsForTemplateVersion env0 neverFails "svc-a" (some "1.0.0")
        "1.1.0" "user-1" stW).1 = stW ∧
    ∃ e, (triggerAlertsForTemplateVersion env0 neverFails "svc-a"
        (some "1.0.0") "1.1.0" "user-1" stW).2 = some e ∧
      isDomainValidationError e = true := by
  exact triggerAlertsForTemplateVersion_invalid_resource env0 neverFails
    "svc-a" (some "1.0.0") "1.1.0" "user-1" stW
    (Or.inr ⟨svcA, by decide, by decide⟩)

/-- Claim C4: on an existing service template, calling
`triggerAlertsForTemplateVersion` with `outdatedVersion = null` returns
without creating any alert or emitting any notification — the state is
returned untouched. -/
theorem triggerAlertsForTemplateVersion_null_outdatedVersion
    (env : Env) (fails : TechDebtEvent → Bool) (tid lv uid : String)
    (st : ServiceState) (T : ResourceRec)
    (hT : findResource env tid = some T)
    (hty : T.resourceType = EnumResourceType.ServiceTemplate) :
    triggerAlertsForTemplateVersion env fails tid none lv uid st =
      (st, none) := by
  simp only [triggerAlertsForTemplateVersion, hT]
  rw [if_neg (by simp [hty])]

/-- Witness for claim C4 on the concrete template `tpl-1`. -/
theorem triggerAlertsForTemplateVersion_null_outdatedVersion_witness :
    triggerAlertsForTemplateVersion env0 neverFails "tpl-1" none "1.1.0"
      "user-1" stW = (stW, none) := by
  exact triggerAlertsForTemplateVersion_null_outdatedVersion env0 neverFails
    "tpl-1" "1.1.0" "user-1" stW tplT (by decide) (by decide)

/-- Claim C6: `resolvesServiceTemplateUpdated` resolves exactly the `New`
`TemplateVersion` alerts of the given resource: any prior alert is found in
the new store with status `Resolved` when it matched and entirely unchanged
otherwise, no matching alert is left `New`, and no alert is added or
removed. -/
theorem resolvesServiceTemplateUpdated_frame
    (st : ServiceState) (rid : String) (a b : OutdatedVersionAlert)
    (ha : a ∈ st.alerts)
    (hb : b ∈ (resolvesServiceTemplateUpdated st rid).alerts) :
    (if a.resourceId = rid ∧
        a.type = EnumOutdatedVersionAlertType.TemplateVersion ∧
        a.status = EnumOutdatedVersionAlertStatus.New then
      { a with status := EnumOutdatedVersionAlertStatus.Resolved }
     else a) ∈ (resolvesServiceTemplateUpdated st rid).alerts ∧
    ¬(b.resourceId = rid ∧
        b.type = EnumOutdatedVersionAlertType.TemplateVersion ∧
        b.status = EnumOutdatedVersionAlertStatus.New) ∧
    (resolvesServiceTemplateUpdated st rid).alerts.length =
      st.alerts.length := by
  refine ⟨?_, ?_, ?_⟩
  · by_cases hc : a.resourceId = rid ∧
        a.type = EnumOutdatedVersionAlertType.TemplateVersion ∧
        a.status = EnumOutdatedVersionAlertStatus.New
    · rw [if_pos hc]
      refine List.mem_map.mpr ⟨a, ha, ?_⟩
      rw [if_pos]
      simp [hc.1, hc.2.1, hc.2.2]
    · rw [if_neg hc]
      refine List.mem_map.mpr ⟨a, ha, ?_⟩
      rw [if_neg]
      intro hcon
      simp only [Bool.and_eq_true, decide_eq_true_eq] at hcon
      exact hc ⟨hcon.1.1, hcon.1.2, hcon.2⟩
  · obtain ⟨a0, _, heq⟩ := List.mem_map.mp hb
    intro hcon
    by_cases hm : (a0.resourceId = rid &&
        a0.type = EnumOutdatedVersionAlertType.TemplateVersion &&
        a0.status = EnumOutdatedVersionAlertStatus.New) = true
    · rw [if_pos (by simpa using hm)] at heq
      rw [← heq] at hcon
      simp at hcon
    · rw [if_neg (by simpa using hm)] at heq
      rw [← heq] at hcon
      exact hm (by simp [hcon.1, hcon.2.1, hcon.2.2])
  · exact List.length_map _ _

/-- Witness for claim C6: resolving `svc-a` resolves its template alert and
leaves the alert of `svc-b` untouched. -/
theorem resolvesServiceTemplateUpdated_frame_witness :
    (if newTemplateAlert.resourceId = "svc-a" ∧
        newTemplateAlert.type =
          EnumOutdatedVersionAlertType.TemplateVersion ∧
        newTemplateAlert.status = EnumOutdatedVersionAlertStatus.New then
      { newTemplateAlert with
          status := EnumOutdatedVersionAlertStatus.Resolved }
     else newTemplateAlert) ∈
      (resolvesServiceTemplateUpdated stW "svc-a").alerts ∧
    ¬(otherResourceAlert.resourceId = "svc-a" ∧
        otherResourceAlert.type =
          EnumOutdatedVersionAlertType.TemplateVersion ∧
        otherResourceAlert.status = EnumOutdatedVersionAlertStatus.New) ∧
    (resolvesServiceTemplateUpdated stW "svc-a").alerts.length =
      stW.alerts.length := by
  exact resolvesServiceTemplateUpdated_frame stW "svc-a" newTemplateAlert
    otherResourceAlert (by decide) (by decide)

/-- Claim C9: whatever `where` clause the caller supplies, every alert
returned by `findMany` belongs to an owning resource that exists, is not
soft-deleted and is not archived; the caller's own alert-level filters and
its other resource sub-filters are still honoured (merged, not replaced). -/
theorem findMany_excludes_deleted_archived
    (env : Env) (st : ServiceState) (w : AlertWhere)
    (a : OutdatedVersionAlert) (ha : a ∈ findMany env st w) :
    (∃ r, findResource env a.resourceId = some r ∧
      r.deletedAt = none ∧ r.archived = false) ∧
    (∀ rid, w.resourceId = some rid → a.resourceId = rid) ∧
    (∀ t, w.type = some t → a.type = t) ∧
    (∀ s, w.status = some s → a.status = s) ∧
    (∀ rw p, w.resource = some rw → rw.projectId = some p →
      ∃ r, findResource env a.resourceId = some r ∧ r.projectId = p) ∧
    a ∈ st.alerts := by
  obtain ⟨hmem, hev⟩ := List.mem_filter.mp ha
  have hres : (mergedWhere w).resource = some
      { (w.resource.getD {}) with
          deletedAt := some none
          archivedNot := some true } := rfl
  simp only [evalAlertWhere, hres, Bool.and_eq_true] at hev
  obtain ⟨⟨⟨h1, h2⟩, h3⟩, h4⟩ := hev
  cases hfr : findResource env a.resourceId with
  | none => rw [hfr] at h4; cases h4
  | some r =>
      rw [hfr] at h4
      simp only [evalResourceWhere, Bool.and_eq_true, decide_eq_true_eq,
        Bool.not_eq_true'] at h4
      obtain ⟨⟨hproj, hdel⟩, harch⟩ := h4
      refine ⟨⟨r, rfl, hdel, by simpa using harch⟩, ?_, ?_, ?_, ?_, hmem⟩
      · intro rid hrid
        have : (mergedWhere w).resourceId = some rid := hrid
        rw [this] at h1
        simpa using h1
      · intro t ht
        have : (mergedWhere w).type = some t := ht
        rw [this] at h2
        simpa using h2
      · intro s hs
        have : (mergedWhere w).status = some s := hs
        rw [this] at h3
        simpa using h3
      · intro rw0 p hrw hp
        refine ⟨r, rfl, ?_⟩
        have hbase : w.resource.getD {} = rw0 := by rw [hrw]; rfl
        rw [hbase, hp] at hproj
        simpa using hproj

/-- Witness for claim C9: a caller filter selecting `New` alerts. -/
theorem findMany_excludes_deleted_archived_witness :
    (∃ r, findResource env0 newTemplateAlert.resourceId = some r ∧
      r.deletedAt = none ∧ r.archived = false) ∧
    (∀ rid, ({ status := some EnumOutdatedVersionAlertStatus.New } :
        AlertWhere).resourceId = some rid →
      newTemplateAlert.resourceId = rid) ∧
    (∀ t, ({ status := some EnumOutdatedVersionAlertStatus.New } :
        AlertWhere).type = some t → newTemplateAlert.type = t) ∧
    (∀ s, ({ status := some EnumOutdatedVersionAlertStatus.New } :
        AlertWhere).status = some s → newTemplateAlert.status = s) ∧
    (∀ rw p, ({ status := some EnumOutdatedVersionAlertStatus.New } :
        AlertWhere).resource = some rw → rw.projectId = some p →
      ∃ r, findResource env0 newTemplateAlert.resourceId = some r ∧
        r.projectId = p) ∧
    newTemplateAlert ∈ stW.alerts := by
  exact findMany_excludes_deleted_archived env0 stW
    { status := some EnumOutdatedVersionAlertStatus.New }
    newTemplateAlert (by decide)

/-- The notification events of a trace, in dispatch order. -/
def eventsOf : List TraceEntry → List TechDebtEvent
  | [] => []
  | TraceEntry.alertCreated _ :: rest => eventsOf rest
  | TraceEntry.eventEmitted e :: rest => e :: eventsOf rest

lemma eventsOf_append : ∀ tr l : List TraceEntry,
    eventsOf (tr ++ l) = eventsOf tr ++ eventsOf l := by
  intro tr
  induction tr with
  | nil => intro l; rfl
  | cons hd tl ih =>
      intro l
      cases hd with
      | alertCreated a => simp [eventsOf, ih]
      | eventEmitted e => simp [eventsOf, ih]

lemma emitMessage_trace (f : TechDebtEvent → Bool) (st : ServiceState)
    (ev : TechDebtEvent) (msg : String) :
    (emitMessage f st ev msg).trace =
      st.trace ++ [TraceEntry.eventEmitted ev] := by
  unfold emitMessage
  by_cases h : f ev <;> simp [h]

lemma emitMessage_alerts (f : TechDebtEvent → Bool) (st : ServiceState)
    (ev : TechDebtEvent) (msg : String) :
    (emitMessage f st ev msg).alerts = st.alerts := by
  unfold emitMessage
  by_cases h : f ev <;> simp [h]

lemma emitMessage_nextAlertId (f : TechDebtEvent → Bool) (st : ServiceState)
    (ev : TechDebtEvent) (msg : String) :
    (emitMessage f st ev msg).nextAlertId = st.nextAlertId := by
  unfold emitMessage
  by_cases h : f ev <;> simp [h]

lemma emitMessage_logged (f : TechDebtEvent → Bool) (st : ServiceState)
    (ev : TechDebtEvent) (msg : String) :
    (emitMessage f st ev msg).logged.length =
      st.logged.length + (if f ev then 1 else 0) := by
  unfold emitMessage
  by_cases h : f ev <;> simp [h]

/-- Two service states that agree on everything except possibly the error
log. -/
def agreesExceptLog (s t : ServiceState) : Prop :=
  s.alerts = t.alerts ∧ s.nextAlertId = t.nextAlertId ∧ s.trace = t.trace

lemma agreesExceptLog_refl (s : ServiceState) : agreesExceptLog s s :=
  ⟨rfl, rfl, rfl⟩

lemma create_congr {s t : ServiceState} (d : CreateOutdatedVersionAlertData)
    (h : agreesExceptLog s t) :
    agreesExceptLog (create s d).1 (create t d).1 ∧
      (create s d).2 = (create t d).2 := by
  obtain ⟨ha, hn, htr⟩ := h
  refine ⟨⟨?_, ?_, ?_⟩, ?_⟩ <;>
    simp [create, ha, hn, htr]

lemma emitMessage_congr {s t : ServiceState} (f g : TechDebtEvent → Bool)
    (ev : TechDebtEvent) (msg : String) (h : agreesExceptLog s t) :
    agreesExceptLog (emitMessage f s ev msg) (emitMessage g t ev msg) := by
  obtain ⟨ha, hn, htr⟩ := h
  exact ⟨by rw [emitMessage_alerts, emitMessage_alerts, ha],
    by rw [emitMessage_nextAlertId, emitMessage_nextAlertId, hn],
    by rw [emitMessage_trace, emitMessage_trace, htr]⟩

lemma create_snd_resourceId (st : ServiceState)
    (d : CreateOutdatedVersionAlertData) :
    (create st d).2.resourceId = d.resourceId := rfl

lemma create_fst_logged (st : ServiceState)
    (d : CreateOutdatedVersionAlertData) :
    (create st d).1.logged = st.logged := rfl

lemma create_fst_trace (st : ServiceState)
    (d : CreateOutdatedVersionAlertData) :
    (create st d).1.trace =
      st.trace ++ [TraceEntry.alertCreated (create st d).2] := rfl

lemma create_fst_nextAlertId (st : ServiceState)
    (d : CreateOutdatedVersionAlertData) :
    (create st d).1.nextAlertId = st.nextAlertId + 1 := rfl

lemma templateAlertStep_congr (env : Env) (f g : TechDebtEvent → Bool)
    (wid : Option String) (proj : Option ProjectRec)
    (tpl : ResourceRec) (lv uid : String) {s t : ServiceState}
    (service : ResourceRec) (h : agreesExceptLog s t) :
    agreesExceptLog (templateAlertStep env f wid proj tpl lv uid s service).1
        (templateAlertStep env g wid proj tpl lv uid t service).1 ∧
      (templateAlertStep env f wid proj tpl lv uid s service).2 =
        (templateAlertStep env g wid proj tpl lv uid t service).2 := by
  cases hs : getServiceTemplateSettings env service.id with
  | none =>
      simp only [templateAlertStep, hs]
      exact ⟨h, trivial⟩
  | some ver =>
      obtain ⟨hst, hsnd⟩ := create_congr
        { resourceId := service.id, blockId := none
          type := EnumOutdatedVersionAlertType.TemplateVersion
          outdatedVersion := ver, latestVersion := lv } h
      cases wid with
      | none =>
          simp only [templateAlertStep, hs]
          exact ⟨hst, trivial⟩
      | some wid0 =>
          cases proj with
          | none =>
              simp only [templateAlertStep, hs]
              exact ⟨hst, trivial⟩
          | some proj0 =>
              simp only [templateAlertStep, hs]
              rw [hsnd]
              exact ⟨emitMessage_congr f g _ _ hst, trivial⟩

lemma pluginAlertStep_congr (env : Env) (f g : TechDebtEvent → Bool)
    (proj : Option ProjectRec) (pid nv uid : String) {s t : ServiceState}
    (inst : PluginInstallationRec) (h : agreesExceptLog s t) :
    agreesExceptLog (pluginAlertStep env f proj pid nv uid s inst).1
        (pluginAlertStep env g proj pid nv uid t inst).1 ∧
      (pluginAlertStep env f proj pid nv uid s inst).2 =
        (pluginAlertStep env g proj pid nv uid t inst).2 := by
  obtain ⟨hst, hsnd⟩ := create_congr
    { resourceId := inst.resourceId, blockId := some inst.id
      type := EnumOutdatedVersionAlertType.PluginVersion
      outdatedVersion := inst.version, latestVersion := nv } h
  cases hr : findResource env inst.resourceId with
  | none =>
      simp only [pluginAlertStep, create_snd_resourceId, hr]
      exact ⟨hst, trivial⟩
  | some r =>
      cases proj with
      | none =>
          simp only [pluginAlertStep, create_snd_resourceId, hr]
          exact ⟨hst, trivial⟩
      | some proj0 =>
          simp only [pluginAlertStep, create_snd_resourceId, hr]
          rw [hsnd]
          exact ⟨emitMessage_congr f g _ _ hst, trivial⟩

lemma runSteps_congr {α : Type}
    {step1 step2 : ServiceState → α → ServiceState × Option AlertError}
    (hstep : ∀ s t x, agreesExceptLog s t →
      agreesExceptLog (step1 s x).1 (step2 t x).1 ∧
        (step1 s x).2 = (step2 t x).2) :
    ∀ (xs : List α) (s t : ServiceState), agreesExceptLog s t →
      agreesExceptLog (runSteps step1 s xs).1 (runSteps step2 t xs).1 ∧
        (runSteps step1 s xs).2 = (runSteps step2 t xs).2 := by
  intro xs
  induction xs with
  | nil => intro s t h; exact ⟨h, rfl⟩
  | cons x rest ih =>
      intro s t h
      obtain ⟨h1, h2⟩ := hstep s t x h
      cases hs1 : step1 s x with
      | mk s1 e1 =>
          cases hs2 : step2 t x with
          | mk t1 e2 =>
              rw [hs1, hs2] at h1 h2
              dsimp only at h1 h2
              cases e1 with
              | none =>
                  cases e2 with
                  | none =>
                      rw [runSteps_cons_go hs1, runSteps_cons_go hs2]
                      exact ih s1 t1 h1
                  | some e => exact (Option.noConfusion h2)
              | some e =>
                  cases e2 with
                  | none => exact (Option.noConfusion h2)
                  | some e2 =>
                      rw [runSteps_cons_stop hs1, runSteps_cons_stop hs2]
                      exact ⟨h1, h2⟩

/-- Log-accounting for a fan-out driver: the number of log entries grows by
exactly the number of dispatched events the oracle rejects. -/
lemma runSteps_log_balance {α : Type} (p : TechDebtEvent → Bool)
    {step : ServiceState → α → ServiceState × Option AlertError}
    (hstep : ∀ s x, (step s x).1.logged.length +
        (eventsOf s.trace).countP p =
      s.logged.length + (eventsOf (step s x).1.trace).countP p) :
    ∀ (xs : List α) (s : ServiceState),
      (runSteps step s xs).1.logged.length +
          (eventsOf s.trace).countP p =
        s.logged.length + (eventsOf (runSteps step s xs).1.trace).countP p := by
  intro xs
  induction xs with
  | nil => intro s; rfl
  | cons x rest ih =>
      intro s
      have h1 := hstep s x
      cases hs : step s x with
      | mk s1 e =>
          rw [hs] at h1
          dsimp only at h1
          cases e with
          | some err =>
              rw [runSteps_cons_stop hs]
              exact h1
          | none =>
              rw [runSteps_cons_go hs]
              have h2 := ih s1
              omega

lemma templateAlertStep_log_balance (env : Env) (f : TechDebtEvent → Bool)
    (wid : Option String) (proj : Option ProjectRec) (tpl : ResourceRec)
    (lv uid : String) (s : ServiceState) (service : ResourceRec) :
    (templateAlertStep env f wid proj tpl lv uid s service).1.logged.length +
        (eventsOf s.trace).countP f =
      s.logged.length +
        (eventsOf
          (templateAlertStep env f wid proj tpl lv uid s
            service).1.trace).countP f := by
  cases hs : getServiceTemplateSettings env service.id with
  | none => simp only [templateAlertStep, hs]
  | some ver =>
      cases wid with
      | none =>
          simp only [templateAlertStep, hs, create_fst_logged,
            create_fst_trace, eventsOf_append, eventsOf, List.append_nil]
      | some wid0 =>
          cases proj with
          | none =>
              simp only [templateAlertStep, hs, create_fst_logged,
                create_fst_trace, eventsOf_append, eventsOf, List.append_nil]
          | some proj0 =>
              simp only [templateAlertStep, hs]
              rw [emitMessage_logged, emitMessage_trace]
              simp only [create_fst_logged, create_fst_trace,
                eventsOf_append, eventsOf, List.countP_append,
                List.countP_cons, List.countP_nil, List.append_nil]
              omega

lemma pluginAlertStep_log_balance (env : Env) (f : TechDebtEvent → Bool)
    (proj : Option ProjectRec) (pid nv uid : String) (s : ServiceState)
    (inst : PluginInstallationRec) :
    (pluginAlertStep env f proj pid nv uid s inst).1.logged.length +
        (eventsOf s.trace).countP f =
      s.logged.length +
        (eventsOf
          (pluginAlertStep env f proj pid nv uid s inst).1.trace).countP
          f := by
  cases hr : findResource env inst.resourceId with
  | none =>
      simp only [pluginAlertStep, create_snd_resourceId, hr,
        create_fst_logged, create_fst_trace, eventsOf_append, eventsOf,
        List.append_nil]
  | some r =>
      cases proj with
      | none =>
          simp only [pluginAlertStep, create_snd_resourceId, hr,
            create_fst_logged, create_fst_trace, eventsOf_append, eventsOf,
            List.append_nil]
      | some proj0 =>
          simp only [pluginAlertStep, create_snd_resourceId, hr]
          rw [emitMessage_logged, emitMessage_trace]
          simp only [create_fst_logged, create_fst_trace,
            eventsOf_append, eventsOf, List.countP_append,
            List.countP_cons, List.countP_nil, List.append_nil]
          omega

end Amplication

namespace ProjectBaseUrl

/-- Spec-side reading of the platform route pattern
`"/:workspace([A-Za-z0-9-]{20,})/platform/:project([A-Za-z0-9-]{20,})/"`:
first segment a valid parameter, second the literal `platform`, third a
valid parameter. -/
def platformPatternMatches : List String → Bool
  | w :: s :: p :: _ =>
      s = "platform" && validRouteParam w && validRouteParam p
  | _ => false

/-- Spec-side reading of the plain route pattern
`"/:workspace([A-Za-z0-9-]{20,})/:project([A-Za-z0-9-]{20,})/"`: the first
two segments are valid parameters. -/
def plainPatternMatches : List String → Bool
  | w :: p :: _ => validRouteParam w && validRouteParam p
  | _ => false

lemma matchProjectRoute_eq_none {segments : List String}
    (h1 : platformPatternMatches segments = false)
    (h2 : plainPatternMatches segments = false) :
    matchProjectRoute segments = none := by
  match segments with
  | [] => rfl
  | [w] => rfl
  | [w, s] =>
      simp only [plainPatternMatches] at h2
      simp [matchProjectRoute, h2]
  | w :: s :: p :: rest =>
      simp only [platformPatternMatches] at h1
      simp only [plainPatternMatches] at h2
      simp [matchProjectRoute, h1, h2]

/-- Claim C10: when the current route matches neither pattern (both
identifiers at least 20 characters of `[A-Za-z0-9-]`), the hook yields
`baseUrl = ""` and `isPlatformConsole = false` whatever the override; when a
pattern matches, `baseUrl` is `"/" ++ workspace ++ ("/platform"` when the
computed platform-console flag is set, else `"") ++ "/" ++ project`. -/
theorem useProjectBaseUrl_spec (segments : List String) (ov : Option Bool) :
    (platformPatternMatches segments = false →
      plainPatternMatches segments = false →
      useProjectBaseUrl segments ov = ("", false)) ∧
    (∀ w p rest, segments = w :: "platform" :: p :: rest →
      validRouteParam w = true → validRouteParam p = true →
      useProjectBaseUrl segments ov =
        ("/" ++ w ++ (if ov.getD true then "/platform" else "") ++ "/" ++ p,
          ov.getD true)) ∧
    (∀ w p rest, segments = w :: p :: rest → p ≠ "platform" →
      validRouteParam w = true → validRouteParam p = true →
      useProjectBaseUrl segments ov =
        ("/" ++ w ++ (if ov.getD false then "/platform" else "") ++ "/" ++ p,
          ov.getD false)) := by
  refine ⟨?_, ?_, ?_⟩
  · intro h1 h2
    simp [useProjectBaseUrl, matchProjectRoute_eq_none h1 h2]
  · intro w p rest hseg hw hp
    subst hseg
    simp [useProjectBaseUrl, matchProjectRoute, hw, hp]
  · intro w p rest hseg hne hw hp
    subst hseg
    cases rest with
    | nil =>
        simp [useProjectBaseUrl, matchProjectRoute, hw, hp]
    | cons r0 rest0 =>
        simp [useProjectBaseUrl, matchProjectRoute, hw, hp, hne]

/-- Witness for claim C10 on a concrete platform-console route. -/
theorem useProjectBaseUrl_spec_witness :
    useProjectBaseUrl
      ["workspace-aaaaaaaaaaaaaa", "platform", "project-bbbbbbbbbbbbbb"]
      none =
      ("/workspace-aaaaaaaaaaaaaa/platform/project-bbbbbbbbbbbbbb",
        true) := by
  have h := (useProjectBaseUrl_spec
      ["workspace-aaaaaaaaaaaaaa", "platform", "project-bbbbbbbbbbbbbb"]
      none).2.1 "workspace-aaaaaaaaaaaaaa" "project-bbbbbbbbbbbbbb" [] rfl
      (by decide) (by decide)
  simpa using h

end ProjectBaseUrl

namespace Amplication

lemma triggerT_congr (env : Env) (f g : TechDebtEvent → Bool)
    (tid : String) (ov : Option String) (lv uid : String)
    (st : ServiceState) :
    agreesExceptLog (triggerAlertsForTemplateVersion env f tid ov lv uid st).1
        (triggerAlertsForTemplateVersion env g tid ov lv uid st).1 ∧
      (triggerAlertsForTemplateVersion env f tid ov lv uid st).2 =
        (triggerAlertsForTemplateVersion env g tid ov lv uid st).2 := by
  cases hfr : findResource env tid with
  | none =>
      simp only [triggerAlertsForTemplateVersion, hfr]
      exact ⟨agreesExceptLog_refl st, trivial⟩
  | some T =>
      by_cases hty : T.resourceType ≠ EnumResourceType.ServiceTemplate
      · simp only [triggerAlertsForTemplateVersion, hfr, if_pos hty]
        exact ⟨agreesExceptLog_refl st, trivial⟩
      · cases ov with
        | none =>
            simp only [triggerAlertsForTemplateVersion, hfr, if_neg hty]
            exact ⟨agreesExceptLog_refl st, trivial⟩
        | some v =>
            simp only [triggerAlertsForTemplateVersion, hfr, if_neg hty]
            exact runSteps_congr
              (fun s t x h => templateAlertStep_congr env f g
                (getResourceWorkspace env tid) (findProject env T.projectId)
                T lv uid x h)
              (resourcesOfTemplate env tid T.projectId) st st
              (agreesExceptLog_refl st)

lemma triggerP_congr (env : Env) (f g : TechDebtEvent → Bool)
    (pid plid nv uid : String) (st : ServiceState) :
    agreesExceptLog
        (triggerAlertsForNewPluginVersion env f pid plid nv uid st).1
        (triggerAlertsForNewPluginVersion env g pid plid nv uid st).1 ∧
      (triggerAlertsForNewPluginVersion env f pid plid nv uid st).2 =
        (triggerAlertsForNewPluginVersion env g pid plid nv uid st).2 := by
  simp only [triggerAlertsForNewPluginVersion]
  exact runSteps_congr
    (fun s t x h => pluginAlertStep_congr env f g (findProject env pid)
      pid nv uid x h)
    (findPluginInstallationByPluginId env plid pid) st st
    (agreesExceptLog_refl st)

lemma triggerT_log_balance (env : Env) (f : TechDebtEvent → Bool)
    (tid : String) (ov : Option String) (lv uid : String)
    (st : ServiceState) :
    (triggerAlertsForTemplateVersion env f tid ov lv uid
          st).1.logged.length + (eventsOf st.trace).countP f =
      st.logged.length +
        (eventsOf (triggerAlertsForTemplateVersion env f tid ov lv uid
          st).1.trace).countP f := by
  cases hfr : findResource env tid with
  | none => simp only [triggerAlertsForTemplateVersion, hfr]
  | some T =>
      by_cases hty : T.resourceType ≠ EnumResourceType.ServiceTemplate
      · simp only [triggerAlertsForTemplateVersion, hfr, if_pos hty]
      · cases ov with
        | none => simp only [triggerAlertsForTemplateVersion, hfr, if_neg hty]
        | some v =>
            simp only [triggerAlertsForTemplateVersion, hfr, if_neg hty]
            exact runSteps_log_balance f
              (fun s x => templateAlertStep_log_balance env f
                (getResourceWorkspace env tid) (findProject env T.projectId)
                T lv uid s x)
              (resourcesOfTemplate env tid T.projectId) st

lemma triggerP_log_balance (env : Env) (f : TechDebtEvent → Bool)
    (pid plid nv uid : String) (st : ServiceState) :
    (triggerAlertsForNewPluginVersion env f pid plid nv uid
          st).1.logged.length + (eventsOf st.trace).countP f =
      st.logged.length +
        (eventsOf (triggerAlertsForNewPluginVersion env f pid plid nv uid
          st).1.trace).countP f := by
  simp only [triggerAlertsForNewPluginVersion]
  exact runSteps_log_balance f
    (fun s x => pluginAlertStep_log_balance env f (findProject env pid)
      pid nv uid s x)
    (findPluginInstallationByPluginId env plid pid) st

/-- Claim C5: in both fan-out operations the outcome — alerts written, events
dispatched, error thrown — does not depend on which notification deliveries
reject (so one rejection never aborts the remaining services or
installations, and never propagates to the caller), and the log grows by
exactly one entry per rejected delivery. -/
theorem fanout_emission_failure_isolated
    (env : Env) (f g : TechDebtEvent → Bool) (tid : String)
    (ov : Option String) (lv uid pid plid nv : String)
    (st : ServiceState) :
    ((triggerAlertsForTemplateVersion env f tid ov lv uid st).1.alerts =
      (triggerAlertsForTemplateVersion env g tid ov lv uid st).1.alerts) ∧
    ((triggerAlertsForTemplateVersion env f tid ov lv uid st).1.trace =
      (triggerAlertsForTemplateVersion env g tid ov lv uid st).1.trace) ∧
    ((triggerAlertsForTemplateVersion env f tid ov lv uid st).2 =
      (triggerAlertsForTemplateVersion env g tid ov lv uid st).2) ∧
    ((triggerAlertsForNewPluginVersion env f pid plid nv uid st).1.alerts =
      (triggerAlertsForNewPluginVersion env g pid plid nv uid st).1.alerts) ∧
    ((triggerAlertsForNewPluginVersion env f pid plid nv uid st).1.trace =
      (triggerAlertsForNewPluginVersion env g pid plid nv uid st).1.trace) ∧
    ((triggerAlertsForNewPluginVersion env f pid plid nv uid st).2 =
      (triggerAlertsForNewPluginVersion env g pid plid nv uid st).2) ∧
    ((triggerAlertsForTemplateVersion env f tid ov lv uid
          st).1.logged.length + (eventsOf st.trace).countP f =
      st.logged.length +
        (eventsOf (triggerAlertsForTemplateVersion env f tid ov lv uid
          st).1.trace).countP f) ∧
    ((triggerAlertsForNewPluginVersion env f pid plid nv uid
          st).1.logged.length + (eventsOf st.trace).countP f =
      st.logged.length +
        (eventsOf (triggerAlertsForNewPluginVersion env f pid plid nv uid
          st).1.trace).countP f) := by
  obtain ⟨⟨hta, _, htt⟩, hte⟩ := triggerT_congr env f g tid ov lv uid st
  obtain ⟨⟨hpa, _, hpt⟩, hpe⟩ := triggerP_congr env f g pid plid nv uid st
  exact ⟨hta, htt, hte, hpa, hpt, hpe,
    triggerT_log_balance env f tid ov lv uid st,
    triggerP_log_balance env f pid plid nv uid st⟩

/-- Scan of a trace checking that every emitted event is matched by an
earlier completed alert insert carrying the event's `techDebtId` and
`alertType`; `created` accumulates the alerts inserted so far. -/
def okTraceAux (created : List OutdatedVersionAlert) :
    List TraceEntry → Bool
  | [] => true
  | TraceEntry.alertCreated a :: rest => okTraceAux (a :: created) rest
  | TraceEntry.eventEmitted e :: rest =>
      created.any (fun a => a.id = e.techDebtId && a.type = e.alertType) &&
        okTraceAux created rest

/-- Every emission of the trace is preceded by the insert of the alert whose
id and type it carries. -/
def creationPrecedesEmission (tr : List TraceEntry) : Bool :=
  okTraceAux [] tr

/-- The created-alert accumulator after scanning a trace. -/
def accAfter (c : List OutdatedVersionAlert) :
    List TraceEntry → List OutdatedVersionAlert
  | [] => c
  | TraceEntry.alertCreated a :: rest => accAfter (a :: c) rest
  | TraceEntry.eventEmitted _ :: rest => accAfter c rest

lemma okTraceAux_append : ∀ (tr : List TraceEntry)
    (c : List OutdatedVersionAlert) (l : List TraceEntry),
    okTraceAux c (tr ++ l) = (okTraceAux c tr && okTraceAux (accAfter c tr) l)
  | [], c, l => by simp [okTraceAux, accAfter]
  | TraceEntry.alertCreated a :: rest, c, l => by
      simp only [List.cons_append, okTraceAux, accAfter]
      exact okTraceAux_append rest (a :: c) l
  | TraceEntry.eventEmitted e :: rest, c, l => by
      simp only [List.cons_append, okTraceAux, accAfter,
        Bool.and_assoc, List.append_eq]
      rw [okTraceAux_append rest c l]

lemma runSteps_preserves_ok {α : Type}
    {step : ServiceState → α → ServiceState × Option AlertError}
    (hstep : ∀ s x c, okTraceAux c s.trace = true →
      okTraceAux c (step s x).1.trace = true) :
    ∀ (xs : List α) (s : ServiceState) (c : List OutdatedVersionAlert),
      okTraceAux c s.trace = true →
      okTraceAux c (runSteps step s xs).1.trace = true := by
  intro xs
  induction xs with
  | nil => intro s c h; exact h
  | cons x rest ih =>
      intro s c h
      have h1 := hstep s x c h
      cases hs : step s x with
      | mk s1 e =>
          rw [hs] at h1
          dsimp only at h1
          cases e with
          | some err =>
              rw [runSteps_cons_stop hs]
              exact h1
          | none =>
              rw [runSteps_cons_go hs]
              exact ih s1 c h1

lemma templateAlertStep_preserves_ok (env : Env) (f : TechDebtEvent → Bool)
    (wid : Option String) (proj : Option ProjectRec) (tpl : ResourceRec)
    (lv uid : String) (s : ServiceState) (service : ResourceRec)
    (c : List OutdatedVersionAlert) (h : okTraceAux c s.trace = true) :
    okTraceAux c
      (templateAlertStep env f wid proj tpl lv uid s service).1.trace =
      true := by
  cases hs : getServiceTemplateSettings env service.id with
  | none =>
      simp only [templateAlertStep, hs]
      exact h
  | some ver =>
      cases wid with
      | none =>
          simp only [templateAlertStep, hs]
          rw [create_fst_trace, okTraceAux_append, h]
          rfl
      | some wid0 =>
          cases proj with
          | none =>
              simp only [templateAlertStep, hs]
              rw [create_fst_trace, okTraceAux_append, h]
              rfl
          | some proj0 =>
              simp only [templateAlertStep, hs]
              rw [emitMessage_trace, create_fst_trace, List.append_assoc,
                okTraceAux_append, h]
              simp [okTraceAux]

lemma pluginAlertStep_preserves_ok (env : Env) (f : TechDebtEvent → Bool)
    (proj : Option ProjectRec) (pid nv uid : String) (s : ServiceState)
    (inst : PluginInstallationRec)
    (c : List OutdatedVersionAlert) (h : okTraceAux c s.trace = true) :
    okTraceAux c (pluginAlertStep env f proj pid nv uid s inst).1.trace =
      true := by
  cases hr : findResource env inst.resourceId with
  | none =>
      simp only [pluginAlertStep, create_snd_resourceId, hr]
      rw [create_fst_trace, okTraceAux_append, h]
      rfl
  | some r =>
      cases proj with
      | none =>
          simp only [pluginAlertStep, create_snd_resourceId, hr]
          rw [create_fst_trace, okTraceAux_append, h]
          rfl
      | some proj0 =>
          simp only [pluginAlertStep, create_snd_resourceId, hr]
          rw [emitMessage_trace, create_fst_trace, List.append_assoc,
            okTraceAux_append, h]
          simp [okTraceAux]

/-- Claim C8: in every fan-out iteration of both trigger operations, the
alert-store insert completes strictly before the notification dispatch of
the same iteration, and the dispatched event carries the id and type of that
already-inserted alert: the well-formedness of the trace (every emission
matched by an earlier insert) is preserved. -/
theorem creation_precedes_emission
    (env : Env) (f : TechDebtEvent → Bool) (tid : String)
    (ov : Option String) (lv uid pid plid nv : String) (st : ServiceState)
    (h : creationPrecedesEmission st.trace = true) :
    creationPrecedesEmission
        (triggerAlertsForTemplateVersion env f tid ov lv uid
          st).1.trace = true ∧
    creationPrecedesEmission
        (triggerAlertsForNewPluginVersion env f pid plid nv uid
          st).1.trace = true := by
  constructor
  · cases hfr : findResource env tid with
    | none =>
        simp only [triggerAlertsForTemplateVersion, hfr]
        exact h
    | some T =>
        by_cases hty : T.resourceType ≠ EnumResourceType.ServiceTemplate
        · simp only [triggerAlertsForTemplateVersion, hfr, if_pos hty]
          exact h
        · cases ov with
          | none =>
              simp only [triggerAlertsForTemplateVersion, hfr, if_neg hty]
              exact h
          | some v =>
              simp only [triggerAlertsForTemplateVersion, hfr, if_neg hty,
                creationPrecedesEmission]
              exact runSteps_preserves_ok
                (fun s x c hc => templateAlertStep_preserves_ok env f
                  (getResourceWorkspace env tid)
                  (findProject env T.projectId) T lv uid s x c hc)
                (resourcesOfTemplate env tid T.projectId) st [] h
  · simp only [triggerAlertsForNewPluginVersion, creationPrecedesEmission]
    exact runSteps_preserves_ok
      (fun s x c hc => pluginAlertStep_preserves_ok env f
        (findProject env pid) pid nv uid s x c hc)
      (findPluginInstallationByPluginId env plid pid) st [] h

/-- Witness for claim C8 on the concrete environment, starting from an empty
trace. -/
theorem creation_precedes_emission_witness :
    creationPrecedesEmission
        (triggerAlertsForTemplateVersion env0 neverFails "tpl-1"
          (some "1.0.0") "1.1.0" "user-1" stW).1.trace = true ∧
    creationPrecedesEmission
        (triggerAlertsForNewPluginVersion env0 neverFails "proj-1"
          "plugin-aws-s3" "2.0.0" "user-1" stW).1.trace = true := by
  exact creation_precedes_emission env0 neverFails "tpl-1" (some "1.0.0")
    "1.1.0" "user-1" "proj-1" "plugin-aws-s3" "2.0.0" stW (by decide)

end Amplication

namespace Amplication

lemma create_snd_eq (st : ServiceState) (d : CreateOutdatedVersionAlertData) :
    (create st d).2 =
      { id := st.nextAlertId, resourceId := d.resourceId
        blockId := d.blockId, type := d.type
        status := EnumOutdatedVersionAlertStatus.New
        outdatedVersion := d.outdatedVersion
        latestVersion := d.latestVersion } := rfl

/-- The per-installation fan-out behaviour as the specification words it:
for each installation whose owning resource resolves, one alert insert
(type `PluginVersion`, block the installation, `outdatedVersion` the
installation's current version, `latestVersion` the new version) followed by
one notification emission carrying the new alert's id and type and the
resolved resource's name. -/
def pluginFanoutSpec (env : Env) (proj : ProjectRec)
    (projectId newVersion userId : String) :
    Nat → List PluginInstallationRec → List TraceEntry
  | _, [] => []
  | nextId, inst :: rest =>
      match findResource env inst.resourceId with
      | none => []
      | some r =>
          TraceEntry.alertCreated
            { id := nextId, resourceId := inst.resourceId
              blockId := some inst.id
              type := EnumOutdatedVersionAlertType.PluginVersion
              status := EnumOutdatedVersionAlertStatus.New
              outdatedVersion := inst.version
              latestVersion := newVersion } ::
          TraceEntry.eventEmitted
            { resourceId := inst.resourceId, resourceName := r.name
              workspaceId := proj.workspaceId, projectId := projectId
              techDebtId := nextId, externalId := encryptString userId
              resourceType := r.resourceType, projectName := proj.name
              alertType := EnumOutdatedVersionAlertType.PluginVersion
              alertInitiator := inst.displayName } ::
          pluginFanoutSpec env proj projectId newVersion userId
            (nextId + 1) rest

lemma pluginAlertStep_eq (env : Env) (f : TechDebtEvent → Bool)
    (proj0 : ProjectRec) (pid nv uid : String) (s : ServiceState)
    (inst : PluginInstallationRec) (r : ResourceRec)
    (hr : findResource env inst.resourceId = some r) :
    pluginAlertStep env f (some proj0) pid nv uid s inst =
      (emitMessage f
        (create s
          { resourceId := inst.resourceId, blockId := some inst.id
            type := EnumOutdatedVersionAlertType.PluginVersion
            outdatedVersion := inst.version, latestVersion := nv }).1
        { resourceId := inst.resourceId, resourceName := r.name
          workspaceId := proj0.workspaceId, projectId := pid
          techDebtId := s.nextAlertId, externalId := encryptString uid
          resourceType := r.resourceType, projectName := proj0.name
          alertType := EnumOutdatedVersionAlertType.PluginVersion
          alertInitiator := inst.displayName }
        ("Failed to queue tech debt for plugin " ++ inst.id), none) := by
  simp only [pluginAlertStep, create_snd_resourceId, hr]
  rfl

lemma runSteps_plugin_spec (env : Env) (f : TechDebtEvent → Bool)
    (proj0 : ProjectRec) (pid nv uid : String) :
    ∀ (insts : List PluginInstallationRec) (s : ServiceState),
      (∀ inst ∈ insts, (findResource env inst.resourceId).isSome = true) →
      (runSteps (pluginAlertStep env f (some proj0) pid nv uid) s
          insts).2 = none ∧
      (runSteps (pluginAlertStep env f (some proj0) pid nv uid) s
          insts).1.trace =
        s.trace ++ pluginFanoutSpec env proj0 pid nv uid s.nextAlertId
          insts ∧
      (runSteps (pluginAlertStep env f (some proj0) pid nv uid) s
          insts).1.nextAlertId = s.nextAlertId + insts.length := by
  intro insts
  induction insts with
  | nil =>
      intro s _
      exact ⟨rfl, by simp [runSteps, pluginFanoutSpec], rfl⟩
  | cons inst rest ih =>
      intro s hres
      obtain ⟨r, hr⟩ :=
        Option.isSome_iff_exists.mp (hres inst (List.mem_cons_self inst rest))
      have hstep := pluginAlertStep_eq env f proj0 pid nv uid s inst r hr
      obtain ⟨ihe, iht, ihn⟩ := ih
        (emitMessage f
          (create s
            { resourceId := inst.resourceId, blockId := some inst.id
              type := EnumOutdatedVersionAlertType.PluginVersion
              outdatedVersion := inst.version, latestVersion := nv }).1
          { resourceId := inst.resourceId, resourceName := r.name
            workspaceId := proj0.workspaceId, projectId := pid
            techDebtId := s.nextAlertId, externalId := encryptString uid
            resourceType := r.resourceType, projectName := proj0.name
            alertType := EnumOutdatedVersionAlertType.PluginVersion
            alertInitiator := inst.displayName }
          ("Failed to queue tech debt for plugin " ++ inst.id))
        (fun i hi => hres i (List.mem_cons_of_mem inst hi))
      rw [runSteps_cons_go hstep]
      refine ⟨ihe, ?_, ?_⟩
      · rw [iht, emitMessage_trace, emitMessage_nextAlertId,
          create_fst_trace, create_fst_nextAlertId]
        simp only [pluginFanoutSpec, hr, create_snd_eq]
        simp [List.append_assoc]
      · rw [ihn, emitMessage_nextAlertId, create_fst_nextAlertId]
        simp [List.length_cons]
        omega

/-- Claim C7: for every plugin-installation block of the given plugin inside
the given project (each with a resolvable owning resource),
`triggerAlertsForNewPluginVersion` performs exactly one alert insert — type
`PluginVersion`, block connected to the installation, `outdatedVersion` the
installation's current version, `latestVersion` the new version — followed
by exactly one notification emission carrying that alert's id and type and
the owning resource's name, and throws no error. -/
theorem triggerAlertsForNewPluginVersion_per_installation
    (env : Env) (f : TechDebtEvent → Bool) (pid plid nv uid : String)
    (st : ServiceState) (proj : ProjectRec)
    (hproj : findProject env pid = some proj)
    (hres : ∀ inst ∈ findPluginInstallationByPluginId env plid pid,
      (findResource env inst.resourceId).isSome = true) :
    (triggerAlertsForNewPluginVersion env f pid plid nv uid st).2 = none ∧
    (triggerAlertsForNewPluginVersion env f pid plid nv uid st).1.trace =
      st.trace ++ pluginFanoutSpec env proj pid nv uid st.nextAlertId
        (findPluginInstallationByPluginId env plid pid) := by
  have h := runSteps_plugin_spec env f proj pid nv uid
    (findPluginInstallationByPluginId env plid pid) st hres
  simp only [triggerAlertsForNewPluginVersion, hproj]
  exact ⟨h.1, h.2.1⟩

/-- Witness for claim C7 on the concrete project with one installation of
`plugin-aws-s3`. -/
theorem triggerAlertsForNewPluginVersion_per_installation_witness :
    (triggerAlertsForNewPluginVersion env0 neverFails "proj-1"
        "plugin-aws-s3" "2.0.0" "user-1" stW).2 = none ∧
    (triggerAlertsForNewPluginVersion env0 neverFails "proj-1"
        "plugin-aws-s3" "2.0.0" "user-1" stW).1.trace =
      stW.trace ++ pluginFanoutSpec env0 projP "proj-1" "2.0.0" "user-1"
        stW.nextAlertId
        (findPluginInstallationByPluginId env0 "plugin-aws-s3" "proj-1") := by
  exact triggerAlertsForNewPluginVersion_per_installation env0 neverFails
    "proj-1" "plugin-aws-s3" "2.0.0" "user-1" stW projP (by decide)
    (by decide)

end Amplication

namespace Amplication

lemma templateAlertStep_eq (env : Env) (f : TechDebtEvent → Bool)
    (wid0 : String) (proj0 : ProjectRec) (tpl : ResourceRec)
    (lv uid : String) (s : ServiceState) (service : ResourceRec)
    (ver : String)
    (hs : getServiceTemplateSettings env service.id = some ver) :
    templateAlertStep env f (some wid0) (some proj0) tpl lv uid s service =
      (emitMessage f
        (create s
          { resourceId := service.id, blockId := none
            type := EnumOutdatedVersionAlertType.TemplateVersion
            outdatedVersion := ver, latestVersion := lv }).1
        { resourceId := service.id, resourceName := service.name
          workspaceId := wid0, projectId := tpl.projectId
          techDebtId := s.nextAlertId, externalId := encryptString uid
          resourceType := service.resourceType, projectName := proj0.name
          alertType := EnumOutdatedVersionAlertType.TemplateVersion
          alertInitiator := tpl.name }
        ("Failed to queue tech debt for service " ++ service.id), none) := by
  simp only [templateAlertStep, hs]
  rfl

/-- Claim C2: on a template `T` with services `A` and `B` (and a non-null
outdated version), `triggerAlertsForTemplateVersion` throws nothing,
appends to the trace exactly two alert inserts — both `New`, of type
`TemplateVersion`, one per service, recording each service's own effective
template version — interleaved with exactly two notification emissions whose
`techDebtId` is the id of the alert inserted for the same service, and both
created alerts are in the final store. -/
theorem triggerAlertsForTemplateVersion_two_services
    (env : Env) (f : TechDebtEvent → Bool) (tid ov0 lv uid : String)
    (st : ServiceState) (T A B : ResourceRec) (vA vB : String)
    (pj : ProjectRec) (wid : String)
    (hT : findResource env tid = some T)
    (hty : T.resourceType = EnumResourceType.ServiceTemplate)
    (hsvcs : resourcesOfTemplate env tid T.projectId = [A, B])
    (hA : getServiceTemplateSettings env A.id = some vA)
    (hB : getServiceTemplateSettings env B.id = some vB)
    (hw : getResourceWorkspace env tid = some wid)
    (hp : findProject env T.projectId = some pj)
    (hAB : A.id ≠ B.id) :
    (triggerAlertsForTemplateVersion env f tid (some ov0) lv uid st).2 =
      none ∧
    (triggerAlertsForTemplateVersion env f tid (some ov0) lv uid
        st).1.trace =
      st.trace ++
        [TraceEntry.alertCreated
          { id := st.nextAlertId, resourceId := A.id, blockId := none
            type := EnumOutdatedVersionAlertType.TemplateVersion
            status := EnumOutdatedVersionAlertStatus.New
            outdatedVersion := vA, latestVersion := lv },
         TraceEntry.eventEmitted
          { resourceId := A.id, resourceName := A.name, workspaceId := wid
            projectId := T.projectId, techDebtId := st.nextAlertId
            externalId := encryptString uid, resourceType := A.resourceType
            projectName := pj.name
            alertType := EnumOutdatedVersionAlertType.TemplateVersion
            alertInitiator := T.name },
         TraceEntry.alertCreated
          { id := st.nextAlertId + 1, resourceId := B.id, blockId := none
            type := EnumOutdatedVersionAlertType.TemplateVersion
            status := EnumOutdatedVersionAlertStatus.New
            outdatedVersion := vB, latestVersion := lv },
         TraceEntry.eventEmitted
          { resourceId := B.id, resourceName := B.name, workspaceId := wid
            projectId := T.projectId, techDebtId := st.nextAlertId + 1
            externalId := encryptString uid, resourceType := B.resourceType
            projectName := pj.name
            alertType := EnumOutdatedVersionAlertType.TemplateVersion
            alertInitiator := T.name }] ∧
    ({ id := st.nextAlertId, resourceId := A.id, blockId := none
       type := EnumOutdatedVersionAlertType.TemplateVersion
       status := EnumOutdatedVersionAlertStatus.New
       outdatedVersion := vA, latestVersion := lv } :
        OutdatedVersionAlert) ∈
      (triggerAlertsForTemplateVersion env f tid (some ov0) lv uid
        st).1.alerts ∧
    ({ id := st.nextAlertId + 1, resourceId := B.id, blockId := none
       type := EnumOutdatedVersionAlertType.TemplateVersion
       status := EnumOutdatedVersionAlertStatus.New
       outdatedVersion := vB, latestVersion := lv } :
        OutdatedVersionAlert) ∈
      (triggerAlertsForTemplateVersion env f tid (some ov0) lv uid
        st).1.alerts := by
  have hred : triggerAlertsForTemplateVersion env f tid (some ov0) lv uid
      st =
      runSteps (templateAlertStep env f (some wid) (some pj) T lv uid) st
        [A, B] := by
    simp only [triggerAlertsForTemplateVersion, hT]
    rw [if_neg (by simp [hty]), hw, hp, hsvcs]
  rw [runSteps_cons_go (templateAlertStep_eq env f wid pj T lv uid st A vA
    hA)] at hred
  rw [runSteps_cons_go (templateAlertStep_eq env f wid pj T lv uid _ B vB
    hB)] at hred
  simp only [runSteps] at hred
  refine ⟨?_, ?_, ?_, ?_⟩
  · rw [hred]
  · rw [hred]
    simp only [emitMessage_trace, create_fst_trace, create_snd_eq,
      emitMessage_nextAlertId, create_fst_nextAlertId, List.append_assoc,
      List.cons_append, List.nil_append]
  · rw [hred]
    simp only [emitMessage_alerts, create_alerts_eq, create_snd_eq,
      emitMessage_nextAlertId, create_fst_nextAlertId]
    rw [List.map_append]
    refine List.mem_append_left _ (List.mem_append_right _ ?_)
    rw [List.map_singleton]
    have hno : matchesCreateScope
        { resourceId := B.id, blockId := none
          type := EnumOutdatedVersionAlertType.TemplateVersion
          outdatedVersion := vB, latestVersion := lv }
        { id := st.nextAlertId, resourceId := A.id, blockId := none
          type := EnumOutdatedVersionAlertType.TemplateVersion
          status := EnumOutdatedVersionAlertStatus.New
          outdatedVersion := vA, latestVersion := lv } = false := by
      simp [matchesCreateScope, hAB]
    rw [if_neg (by simp [hno])]
    exact List.mem_singleton.mpr rfl
  · rw [hred]
    simp only [emitMessage_alerts, create_alerts_eq, create_snd_eq,
      emitMessage_nextAlertId, create_fst_nextAlertId]
    exact List.mem_append_right _ (List.mem_singleton.mpr rfl)

/-- Witness for claim C2 on the concrete template `tpl-1` with services
`svc-a` and `svc-b`. -/
theorem triggerAlertsForTemplateVersion_two_services_witness :
    (triggerAlertsForTemplateVersion env0 neverFails "tpl-1"
        (some "1.0.0") "1.1.0" "user-1" stW).2 = none := by
  have h := triggerAlertsForTemplateVersion_two_services env0 neverFails
    "tpl-1" "1.0.0" "1.1.0" "user-1" stW tplT svcA svcB "1.0.0" "0.9.0"
    projP "ws-1" (by decide) (by decide) (by decide) (by decide) (by decide)
    (by decide) (by decide) (by decide)
  exact h.1

end Amplication
